import Mathlib

/-!
Shallow embedding of the Open WebUI knowledge-uploader client
(`openwebui_uploader.py`).  Network and filesystem effects are modelled by an
`Oracle` of deterministic responses (one fixed answer per request, i.e. an
unchanged remote state), the client's single mutable field
`_knowledge_endpoint` by an explicit `ClientState`, and every outgoing HTTP
request and `time.sleep` call by an `Event` appended to a trace.  All
functions are total, which models the source's design that expected failure
modes are converted to `None`/`False`/empty results rather than exceptions.
-/

set_option autoImplicit false

namespace Uploader

/-! ### String helpers mirroring the Python standard library -/

/-- Splits a string at every `'/'`, keeping empty pieces, like Python's
`str.split('/')`. Auxiliary accumulator version over the character list. -/
def splitSlashAux : List Char → List Char → List String
  | [], acc => [String.mk acc.reverse]
  | c :: cs, acc =>
    if c = '/' then String.mk acc.reverse :: splitSlashAux cs []
    else splitSlashAux cs (c :: acc)

/-- Splits a string at every `'/'`, keeping empty pieces. -/
def splitOnSlash (s : String) : List String :=
  splitSlashAux s.toList []

/-- ASCII lowering of a string, modelling Python's `str.lower()` on the ASCII
names this program deals with. -/
def pyLower (s : String) : String :=
  String.mk (s.toList.map Char.toLower)

/-- Index of the last `'.'` in a character list, like Python's
`str.rfind('.')` (with `none` for `-1`). -/
def lastDotIdx (cs : List Char) : Option Nat :=
  ((cs.enum.filter (fun p => p.2 == '.')).getLast?).map (fun p => p.1)

/-- Final path component as computed by `pathlib.PurePosixPath(...).name`:
empty and `"."` components are dropped by the path parser and the last
remaining component (if any) is the name. -/
def pathName (s : String) : String :=
  ((splitOnSlash s).filter (fun c => c ≠ "" && c ≠ ".")).getLastD ""

/-- Extension of the final path component as computed by
`pathlib.PurePosixPath(...).suffix`: the part of the name from its last dot,
provided that dot is neither the first nor the last character of the name. -/
def pathSuffix (s : String) : String :=
  let n := (pathName s).toList
  match lastDotIdx n with
  | none => ""
  | some i => if 0 < i ∧ i + 1 < n.length then String.mk (n.drop i) else ""

/-- Final component of a path as computed by `os.path.basename`: everything
after the last `'/'`. -/
def basename (p : String) : String :=
  (splitOnSlash p).getLastD ""

/-- Replacement worker: scans left to right, replacing each non-overlapping
occurrence of `old` (assumed nonempty) by `new`.  The fuel argument, set to
the length of the scanned list, makes the recursion structural. -/
def replaceAux (old new : List Char) : Nat → List Char → List Char
  | 0, cs => cs
  | _ + 1, [] => []
  | fuel + 1, c :: cs =>
    if (c :: cs).take old.length == old then
      new ++ replaceAux old new fuel ((c :: cs).drop old.length)
    else
      c :: replaceAux old new fuel cs

/-- Python's `str.replace(old, new)`: replaces every non-overlapping
occurrence of `old`, left to right; with an empty `old` it inserts `new`
before every character and at the end. -/
def pyReplace (s old new : String) : String :=
  if old.toList == [] then
    String.mk (new.toList ++ (s.toList.map (fun c => c :: new.toList)).flatten)
  else
    String.mk (replaceAux old.toList new.toList s.toList.length s.toList)

/-- Python truthiness of an optional string (`if x:`): `None` and the empty
string are falsy. -/
def isTruthy : Option String → Bool
  | none => false
  | some s => !(s == "")

/-! ### The allow-list filter (`is_allowed_file`) -/

/-- Allowed extensions, from `is_allowed_file`. -/
def allowed_extensions : List String :=
  [".md", ".txt", ".pdf", ".doc", ".docx"]

/-- Embedding of `is_allowed_file`: rejects the system files `.ds_store` and
`thumbs.db` (names compared lowercased), otherwise accepts exactly the
allow-listed extensions (compared lowercased). -/
def is_allowed_file (file_path : String) : Bool :=
  let filename := pyLower (pathName file_path)
  if filename = ".ds_store" || filename = "thumbs.db" then false
  else allowed_extensions.contains (pyLower (pathSuffix file_path))

/-! ### Effect model -/

/-- Outcome of a JSON-expecting request as the source distinguishes them:
`fail` is `_make_request` returning `None` (network error or non-2xx),
`html` is a response whose content type contains `text/html`, `nonJson` is a
response whose body fails JSON parsing, and `ok v` is a response parsed to
`v`. -/
inductive FetchResult (α : Type) where
  | fail
  | html
  | nonJson
  | ok (val : α)
  deriving DecidableEq

/-- Whether a fetch produced a parsed body. -/
def FetchResult.isOk {α : Type} : FetchResult α → Bool
  | .ok _ => true
  | _ => false

/-- Outcome of the multipart upload request as `upload_file` distinguishes
them (no content-type check happens there): request failure, JSON parse
failure, or a parsed body abstracted to its `id` field (`result.get("id")`,
`none` when absent or not a string). -/
inductive UploadOutcome where
  | fail
  | nonJson
  | ok (id : Option String)
  deriving DecidableEq

/-- A listed knowledge collection, abstracted to the two fields the client
reads: `collection.get("name")` and `collection.get("id")` (`none` models an
absent or non-string field). -/
structure Collection where
  name : Option String
  id : Option String
  deriving DecidableEq

/-- Observable actions of the client: each HTTP request (tagged by the source
call site, carrying the endpoint and payload data sent) and each sleep. -/
inductive Event where
  | listGet (endpoint : String)
  | createPost (endpoint : String) (payload : List (String × String))
  | uploadPost (endpoint : String) (field : String) (filename : String)
  | linkPost (endpoint : String) (payload : List (String × String))
  | sleep (seconds : Rat)
  deriving DecidableEq

/-- Whether an event is a per-file network call (a file upload or a
file-to-collection link request). -/
def Event.isFileCall : Event → Bool
  | .uploadPost _ _ _ => true
  | .linkPost _ _ => true
  | _ => false

/-- Whether an event is a link request. -/
def Event.isLink : Event → Bool
  | .linkPost _ _ => true
  | _ => false

/-- Number of link requests in a trace. -/
def countLink (tr : List Event) : Nat :=
  (tr.filter Event.isLink).length

/-- Deterministic environment: one fixed response per request, modelling an
unchanged remote state and filesystem.  `list` answers the listing `GET`s,
`create` answers the creation `POST`s (body abstracted to its `id` field),
`upload` answers the multipart upload for a given local path, `isFile` is
`os.path.isfile`, `openOk` is whether `open` succeeds without `IOError`, and
`link knowledge_id file_id attempt` is whether the link `POST`'s given
attempt gets a response. -/
structure Oracle where
  list : String → FetchResult (List Collection)
  create : String → FetchResult (Option String)
  upload : String → UploadOutcome
  isFile : String → Bool
  openOk : String → Bool
  link : String → String → Nat → Bool

/-- The client's mutable state: the `_knowledge_endpoint` field, `none`
until discovered. -/
structure ClientState where
  knowledgeEndpoint : Option String
  deriving DecidableEq

/-! ### Listing and name resolution -/

/-- Candidate listing paths of `list_knowledge_collections`, in source
order. -/
def list_candidates : List String :=
  ["/api/v1/workspace/knowledge", "/api/v1/knowledges", "/api/v1/knowledge"]

/-- Loop body of `list_knowledge_collections`: try each endpoint in order;
an HTML or non-JSON or failed response moves on to the next candidate, the
first parsed body is returned and its endpoint cached; when all candidates
are exhausted the result is the empty list. -/
def listGo (o : Oracle) (st : ClientState) :
    List String → List Collection × ClientState × List Event
  | [] => ([], st, [])
  | e :: rest =>
    match o.list e with
    | .ok v => (v, { st with knowledgeEndpoint := some e }, [Event.listGet e])
    | _ =>
      ((listGo o st rest).1, (listGo o st rest).2.1,
        Event.listGet e :: (listGo o st rest).2.2)

/-- Embedding of `list_knowledge_collections`. -/
def list_knowledge_collections (o : Oracle) (st : ClientState) :
    List Collection × ClientState × List Event :=
  listGo o st list_candidates

/-- First matching id scan of `get_knowledge_collection_id`: returns
`collection.get("id")` of the first collection whose `get("name")` equals
the queried name. -/
def findId : List Collection → String → Option String
  | [], _ => none
  | c :: rest, n => if c.name = some n then c.id else findId rest n

/-- Embedding of `get_knowledge_collection_id`. -/
def get_knowledge_collection_id (o : Oracle) (st : ClientState)
    (name : String) : Option String × ClientState × List Event :=
  let r := list_knowledge_collections o st
  (findId r.1 name, r.2.1, r.2.2)

/-! ### Collection creation -/

/-- Base endpoint chosen by `create_knowledge_collection`: the discovered
endpoint when truthy, else the workspace default. -/
def createBase (st : ClientState) : String :=
  if isTruthy st.knowledgeEndpoint then st.knowledgeEndpoint.getD ""
  else "/api/v1/workspace/knowledge"

/-- Candidate creation paths of `create_knowledge_collection`, in source
order. -/
def createCandidates (st : ClientState) : List String :=
  [createBase st ++ "/create",
   "/api/v1/workspace/knowledge/create",
   "/api/v1/knowledges/create",
   "/api/v1/knowledge/create"]

/-- Loop body of `create_knowledge_collection`: try each endpoint in order
with the `{name, description}` payload; on the first parsed body, cache the
endpoint minus `/create` only when nothing was discovered yet, and return
the response's `id` field. -/
def createGo (o : Oracle) (st : ClientState)
    (payload : List (String × String)) :
    List String → Option String × ClientState × List Event
  | [] => (none, st, [])
  | e :: rest =>
    match o.create e with
    | .ok respId =>
      (respId,
       if isTruthy st.knowledgeEndpoint then st
       else { st with knowledgeEndpoint := some (pyReplace e "/create" "") },
       [Event.createPost e payload])
    | _ =>
      ((createGo o st payload rest).1, (createGo o st payload rest).2.1,
        Event.createPost e payload :: (createGo o st payload rest).2.2)

/-- Embedding of `create_knowledge_collection`. -/
def create_knowledge_collection (o : Oracle) (st : ClientState)
    (name description : String) : Option String × ClientState × List Event :=
  createGo o st [("name", name), ("description", description)]
    (createCandidates st)

/-! ### File upload and linking -/

/-- Embedding of `upload_file`: checks existence, the allow-list, and
openability before any network call; then `POST`s the multipart form with
field `file` and returns the parsed response's `id` field, or `none` on
request or parse failure. -/
def upload_file (o : Oracle) (file_path : String) :
    Option String × List Event :=
  if !(o.isFile file_path) then (none, [])
  else if !(is_allowed_file file_path) then (none, [])
  else if !(o.openOk file_path) then (none, [])
  else
    let ev := Event.uploadPost "/api/v1/files/" "file" (basename file_path)
    match o.upload file_path with
    | .fail => (none, [ev])
    | .nonJson => (none, [ev])
    | .ok respId => (respId, [ev])

/-- Link endpoint for a knowledge collection. -/
def link_endpoint (knowledge_id : String) : String :=
  "/api/v1/knowledge/" ++ knowledge_id ++ "/file/add"

/-- Link payload: exactly the one-key object built at the top of
`add_file_to_knowledge`. -/
def link_payload (file_id : String) : List (String × String) :=
  [("file_id", file_id)]

/-- Retry loop of `add_file_to_knowledge`: `addGo resp ev d attempt rem`
models the loop at iteration `attempt` with `rem` further iterations
available.  Each iteration posts `ev`; a response ends the loop with
success; otherwise a sleep of `d` precedes the next attempt, and the last
attempt's failure ends the loop with failure. -/
def addGo (resp : Nat → Bool) (ev : Event) (d : Rat) (attempt : Nat) :
    Nat → Bool × List Event
  | 0 => if resp attempt then (true, [ev]) else (false, [ev])
  | rem + 1 =>
    if resp attempt then (true, [ev])
    else
      ((addGo resp ev d (attempt + 1) rem).1,
        ev :: Event.sleep d :: (addGo resp ev d (attempt + 1) rem).2)

/-- Embedding of `add_file_to_knowledge`: `resp n` tells whether attempt `n`
of the link `POST` gets a response.  `range(retries)` makes zero attempts
when `retries = 0`. -/
def add_file_to_knowledge (resp : Nat → Bool)
    (knowledge_id file_id : String) (retries : Nat) (retry_delay : Rat) :
    Bool × List Event :=
  match retries with
  | 0 => (false, [])
  | n + 1 =>
    addGo resp (Event.linkPost (link_endpoint knowledge_id)
      (link_payload file_id)) retry_delay 0 n

/-! ### Batch orchestration -/

/-- Aggregate result of a batch run, the dictionary returned by
`upload_files_to_knowledge`. -/
structure BatchResult where
  success : Nat
  failed : Nat
  total : Nat
  errors : List String
  deriving DecidableEq

/-- Intermediate result of the per-file loop. -/
structure FileLoopResult where
  success : Nat
  failed : Nat
  errors : List String
  trace : List Event
  deriving DecidableEq

/-- Per-file loop of `upload_files_to_knowledge`: upload each file; on a
truthy file id, sleep the 0.5 s settle delay and link it with the default
three retries and 5 s delay; count one success or one failure (with its
error message) per file. -/
def processFiles (o : Oracle) (knowledge_id : String) :
    List String → FileLoopResult
  | [] => ⟨0, 0, [], []⟩
  | p :: rest =>
    let up := upload_file o p
    let r := processFiles o knowledge_id rest
    if isTruthy up.1 then
      let fid := up.1.getD ""
      let lk := add_file_to_knowledge (o.link knowledge_id fid)
        knowledge_id fid 3 5
      if lk.1 then
        ⟨r.success + 1, r.failed, r.errors,
          up.2 ++ [Event.sleep (1/2)] ++ lk.2 ++ r.trace⟩
      else
        ⟨r.success, r.failed + 1,
          ("Failed to add " ++ p ++ " to knowledge collection") :: r.errors,
          up.2 ++ [Event.sleep (1/2)] ++ lk.2 ++ r.trace⟩
    else
      ⟨r.success, r.failed + 1,
        ("Failed to upload " ++ p) :: r.errors, up.2 ++ r.trace⟩

/-- Embedding of `upload_files_to_knowledge`: resolve the collection id,
optionally create the collection, and on a truthy id run the per-file loop;
otherwise report the whole batch failed with a single error message. -/
def upload_files_to_knowledge (o : Oracle) (st : ClientState)
    (knowledge_name : String) (file_paths : List String)
    (create_if_missing : Bool) (description : String) :
    BatchResult × ClientState × List Event :=
  let r0 := get_knowledge_collection_id o st knowledge_name
  if isTruthy r0.1 then
    let fr := processFiles o (r0.1.getD "") file_paths
    (⟨fr.success, fr.failed, file_paths.length, fr.errors⟩, r0.2.1,
      r0.2.2 ++ fr.trace)
  else if create_if_missing then
    let r1 := create_knowledge_collection o r0.2.1 knowledge_name description
    if isTruthy r1.1 then
      let fr := processFiles o (r1.1.getD "") file_paths
      (⟨fr.success, fr.failed, file_paths.length, fr.errors⟩, r1.2.1,
        r0.2.2 ++ r1.2.2 ++ fr.trace)
    else
      (⟨0, file_paths.length, file_paths.length,
        ["Failed to create knowledge collection '" ++ knowledge_name ++ "'"]⟩,
        r1.2.1, r0.2.2 ++ r1.2.2)
  else
    (⟨0, file_paths.length, file_paths.length,
      ["Knowledge collection '" ++ knowledge_name ++ "' not found"]⟩,
      r0.2.1, r0.2.2)

/-- First candidate in a list whose fetch yields a parsed body, with that
body. -/
def firstFetchOk {α : Type} (f : String → FetchResult α) :
    List String → Option (String × α)
  | [] => none
  | e :: rest =>
    match f e with
    | .ok v => some (e, v)
    | _ => firstFetchOk f rest

/-! ### Concrete environments used to instantiate the theorems -/

/-- Environment whose first listing path answers with one collection named
`kb`, where uploads of `a.md` and `c.md` succeed, the upload of `b.md`
fails, and every link attempt gets a response. -/
def oracleBatch : Oracle where
  list := fun e =>
    if e = "/api/v1/workspace/knowledge" then .ok [⟨some "kb", some "kid1"⟩]
    else .fail
  create := fun _ => .fail
  upload := fun p =>
    if p = "a.md" then .ok (some "fa")
    else if p = "c.md" then .ok (some "fc")
    else .fail
  isFile := fun _ => true
  openOk := fun _ => true
  link := fun _ _ _ => true

/-- Environment in which every request fails and no local file exists. -/
def oracleFail : Oracle where
  list := fun _ => .fail
  create := fun _ => .fail
  upload := fun _ => .fail
  isFile := fun _ => false
  openOk := fun _ => false
  link := fun _ _ _ => false

/-- Environment whose creation succeeds only on the second candidate path
`/api/v1/workspace/knowledge/create`, answering with id `42`. -/
def oracleCreate : Oracle where
  list := fun _ => .fail
  create := fun e =>
    if e = "/api/v1/workspace/knowledge/create" then .ok (some "42")
    else .fail
  upload := fun _ => .fail
  isFile := fun _ => false
  openOk := fun _ => false
  link := fun _ _ _ => false

/-- Client state in which the listing path `/api/v1/knowledges` has already
been discovered. -/
def stListed : ClientState := ⟨some "/api/v1/knowledges"⟩

/-! ### Helper lemmas -/

/-- Membership in a concrete string list decides its `contains`. -/
theorem contains_eq_false_of_not_mem {x : String} {l : List String}
    (h : x ∉ l) : l.contains x = false := by
  rw [Bool.eq_false_iff]
  intro hc
  rcases List.contains_iff_exists_mem_beq.mp hc with ⟨b, hb, hxb⟩
  rw [beq_iff_eq] at hxb
  exact h (hxb ▸ hb)

/-- The listing loop's parsed result does not depend on the client state:
the candidate paths are a fixed list and the cached endpoint is only
written, never read, by listing. -/
theorem listGo_result_ignores_state (o : Oracle) (st st' : ClientState) :
    ∀ cs : List String, (listGo o st cs).1 = (listGo o st' cs).1 := by
  intro cs
  induction cs with
  | nil => rfl
  | cons e rest ih => cases h : o.list e <;> simp [listGo, h, ih]

/-- When every candidate fails, the listing loop returns the empty list and
its trace shows one GET per candidate, in order. -/
theorem listGo_allFail (o : Oracle) (st : ClientState) :
    ∀ cs : List String, (∀ e ∈ cs, (o.list e).isOk = false) →
      (listGo o st cs).1 = [] ∧
      (listGo o st cs).2.2 = cs.map Event.listGet := by
  intro cs
  induction cs with
  | nil => intro _; exact ⟨rfl, rfl⟩
  | cons e rest ih =>
    intro h
    cases he : o.list e
    case ok v =>
      have hh := h e (by simp)
      rw [he] at hh
      simp [FetchResult.isOk] at hh
    all_goals
      have hr := ih (fun x hx => h x (by simp [hx]))
      simp [listGo, he, hr.1, hr.2]

/-- The listing loop returns the parsed body of the first candidate whose
fetch yields one. -/
theorem listGo_firstOk (o : Oracle) (st : ClientState) :
    ∀ (cs : List String) (e : String) (v : List Collection),
      firstFetchOk o.list cs = some (e, v) → (listGo o st cs).1 = v := by
  intro cs
  induction cs with
  | nil => intro e v h; simp [firstFetchOk] at h
  | cons c rest ih =>
    intro e v h
    cases hc : o.list c
    case ok w =>
      rw [firstFetchOk, hc] at h
      simp only [Option.some.injEq, Prod.mk.injEq] at h
      simp [listGo, hc, h.2]
    all_goals
      rw [firstFetchOk, hc] at h
      simp [listGo, hc, ih e v h]

/-- The listing loop performs no per-file network call. -/
theorem listGo_noFileCall (o : Oracle) (st : ClientState) :
    ∀ cs : List String,
      (listGo o st cs).2.2.filter Event.isFileCall = [] := by
  intro cs
  induction cs with
  | nil => rfl
  | cons e rest ih =>
    cases h : o.list e <;> simp [listGo, h, Event.isFileCall, ih]

/-- The creation loop returns the id of the first candidate whose fetch
yields a parsed body, and updates the cached endpoint only when none was
discovered before, to that candidate minus `/create`. -/
theorem createGo_firstOk (o : Oracle) (st : ClientState)
    (payload : List (String × String)) :
    ∀ (cs : List String) (e : String) (r : Option String),
      firstFetchOk o.create cs = some (e, r) →
      (createGo o st payload cs).1 = r ∧
      (createGo o st payload cs).2.1 =
        (if isTruthy st.knowledgeEndpoint then st
         else { st with
            knowledgeEndpoint := some (pyReplace e "/create" "") }) := by
  intro cs
  induction cs with
  | nil => intro e r h; simp [firstFetchOk] at h
  | cons c rest ih =>
    intro e r h
    cases hc : o.create c
    case ok w =>
      rw [firstFetchOk, hc] at h
      simp only [Option.some.injEq, Prod.mk.injEq] at h
      obtain ⟨h1, h2⟩ := h
      subst h1
      subst h2
      exact ⟨by simp [createGo, hc], by simp [createGo, hc]⟩
    all_goals
      rw [firstFetchOk, hc] at h
      have hr := ih e r h
      constructor
      · simp [createGo, hc, hr.1]
      · simp [createGo, hc, hr.2]

/-- The creation loop performs no per-file network call. -/
theorem createGo_noFileCall (o : Oracle) (st : ClientState)
    (payload : List (String × String)) :
    ∀ cs : List String,
      (createGo o st payload cs).2.2.filter Event.isFileCall = [] := by
  intro cs
  induction cs with
  | nil => rfl
  | cons e rest ih =>
    cases h : o.create e <;> simp [createGo, h, Event.isFileCall, ih]

/-- Any id the first-match scan returns belongs to a collection whose name
equals the queried one. -/
theorem findId_mem :
    ∀ (cols : List Collection) (n i : String), findId cols n = some i →
      ∃ c ∈ cols, c.name = some n ∧ c.id = some i := by
  intro cols n
  induction cols with
  | nil => intro i h; simp [findId] at h
  | cons c rest ih =>
    intro i h
    by_cases hc : c.name = some n
    · rw [findId, if_pos hc] at h
      exact ⟨c, by simp, hc, h⟩
    · rw [findId, if_neg hc] at h
      obtain ⟨c', hm, h1, h2⟩ := ih i h
      exact ⟨c', by simp [hm], h1, h2⟩

/-- With no exactly matching name, the first-match scan returns `none`. -/
theorem findId_not_found :
    ∀ (cols : List Collection) (n : String),
      (∀ c ∈ cols, c.name ≠ some n) → findId cols n = none := by
  intro cols n
  induction cols with
  | nil => intro _; rfl
  | cons c rest ih =>
    intro h
    rw [findId, if_neg (h c (by simp))]
    exact ih (fun x hx => h x (by simp [hx]))

/-- When a matching name exists and every listed collection carries an id,
the first-match scan returns some id. -/
theorem findId_found :
    ∀ (cols : List Collection) (n : String),
      (∀ c ∈ cols, c.id ≠ none) → (∃ c ∈ cols, c.name = some n) →
      ∃ i, findId cols n = some i := by
  intro cols n
  induction cols with
  | nil => intro _ hex; simp at hex
  | cons c rest ih =>
    intro hid hex
    by_cases hc : c.name = some n
    · cases hcid : c.id with
      | none => exact absurd hcid (hid c (by simp))
      | some i => exact ⟨i, by rw [findId, if_pos hc, hcid]⟩
    · rw [findId, if_neg hc]
      rcases hex with ⟨c', hm, hn⟩
      rcases List.mem_cons.mp hm with h | h
      · exact absurd (h ▸ hn) hc
      · exact ih (fun x hx => hid x (by simp [hx])) ⟨c', h, hn⟩

/-- Every event of the retry loop is either its link request or its sleep. -/
theorem addGo_events (resp : Nat → Bool) (ev : Event) (d : Rat) :
    ∀ (rem attempt : Nat), ∀ x ∈ (addGo resp ev d attempt rem).2,
      x = ev ∨ x = Event.sleep d := by
  intro rem
  induction rem with
  | zero =>
    intro attempt x hx
    by_cases h : resp attempt <;> simp [addGo, h] at hx <;> simp [hx]
  | succ n ih =>
    intro attempt x hx
    by_cases h : resp attempt
    · simp [addGo, h] at hx
      simp [hx]
    · simp [addGo, h] at hx
      rcases hx with h1 | h1 | h1
      · exact Or.inl h1
      · exact Or.inr h1
      · exact ih (attempt + 1) x h1

/-- A sleep event is not a link request. -/
theorem isLink_sleep (d : Rat) : (Event.sleep d).isLink = false := rfl

/-- The retry loop never performs more link requests than the attempts it
was granted. -/
theorem addGo_countLink (resp : Nat → Bool) (ev : Event) (d : Rat) :
    ∀ (rem attempt : Nat),
      countLink (addGo resp ev d attempt rem).2 ≤ rem + 1 := by
  intro rem
  induction rem with
  | zero =>
    intro attempt
    by_cases h : resp attempt <;>
      cases hev : ev.isLink <;>
        simp [addGo, h, countLink, List.filter_cons, hev]
  | succ n ih =>
    intro attempt
    have hih := ih (attempt + 1)
    simp only [countLink] at hih ⊢
    by_cases h : resp attempt
    · cases hev : ev.isLink <;>
        simp [addGo, h, List.filter_cons, hev]
    · cases hev : ev.isLink <;>
        simp [addGo, h, List.filter_cons, hev, isLink_sleep] <;>
          omega

/-- Each file of the batch loop contributes exactly one success or one
failure. -/
theorem processFiles_sum (o : Oracle) (kid : String) :
    ∀ fs : List String,
      (processFiles o kid fs).success + (processFiles o kid fs).failed =
        fs.length := by
  intro fs
  induction fs with
  | nil => rfl
  | cons p rest ih =>
    simp only [processFiles]
    split
    · split <;> simp <;> omega
    · simp
      omega

/-- The batch loop processes a concatenation of path lists exactly as it
processes both parts: counts add and error lists concatenate, so an earlier
file's failure never stops the later files. -/
theorem processFiles_append (o : Oracle) (kid : String) :
    ∀ ps qs : List String,
      (processFiles o kid (ps ++ qs)).success =
        (processFiles o kid ps).success + (processFiles o kid qs).success ∧
      (processFiles o kid (ps ++ qs)).failed =
        (processFiles o kid ps).failed + (processFiles o kid qs).failed ∧
      (processFiles o kid (ps ++ qs)).errors =
        (processFiles o kid ps).errors ++ (processFiles o kid qs).errors := by
  intro ps qs
  induction ps with
  | nil => simp [processFiles]
  | cons p rest ih =>
    simp only [List.cons_append, processFiles]
    split
    · split <;> simp [ih.1, ih.2.1, ih.2.2] <;> omega
    · simp [ih.1, ih.2.1, ih.2.2]
      omega

/-- A file rejected by the allow-list is refused before any network call. -/
theorem upload_file_not_allowed (o : Oracle) (p : String)
    (h : is_allowed_file p = false) : upload_file o p = (none, []) := by
  cases hf : o.isFile p <;> simp [upload_file, hf, h]

/-! ### Claims -/

/-- C1: for every knowledge id and file id, every POST that
`add_file_to_knowledge` performs goes to
`/api/v1/knowledge/{id}/file/add` with exactly the one-key payload
`{"file_id": file_id}`; in particular the payload carries no `metadata`
key, not even an empty or null one. -/
theorem C1_link_payload_exact (resp : Nat → Bool)
    (knowledge_id file_id : String) (retries : Nat) (d : Rat) :
    ∀ ev ∈ (add_file_to_knowledge resp knowledge_id file_id retries d).2,
      ∀ e p, ev = Event.linkPost e p →
        e = link_endpoint knowledge_id ∧ p = link_payload file_id ∧
        p.lookup "metadata" = none ∧ p = [("file_id", file_id)] := by
  intro ev hev e p hep
  cases retries with
  | zero => simp [add_file_to_knowledge] at hev
  | succ n =>
    rcases addGo_events resp
        (Event.linkPost (link_endpoint knowledge_id) (link_payload file_id))
        d n 0 ev (by simpa [add_file_to_knowledge] using hev) with h | h
    · rw [hep] at h
      simp only [Event.linkPost.injEq] at h
      refine ⟨h.1, h.2, ?_, by rw [h.2]; rfl⟩
      rw [h.2]
      rfl
    · rw [hep] at h
      simp at h

/-- Witness for C1: the single request of a one-retry call carries exactly
the one-key payload. -/
theorem C1_witness :
    "/api/v1/knowledge/k/file/add" = link_endpoint "k" ∧
    [("file_id", "f")] = link_payload "f" ∧
    ([("file_id", "f")] : List (String × String)).lookup "metadata" = none ∧
    ([("file_id", "f")] : List (String × String)) = [("file_id", "f")] :=
  C1_link_payload_exact (fun _ => false) "k" "f" 1 5
    (Event.linkPost (link_endpoint "k") (link_payload "f")) (by decide)
    "/api/v1/knowledge/k/file/add" [("file_id", "f")] (by decide)

/-- C2: when name resolution yields no usable id and creation is not
requested or yields none either, the whole batch of N files is reported as
`{total := N, success := 0, failed := N}` with exactly one error message,
and the run performs no upload request and no link request. -/
theorem C2_batch_fails_without_collection (o : Oracle) (st : ClientState)
    (name : String) (files : List String) (cim : Bool) (desc : String)
    (h1 : isTruthy (get_knowledge_collection_id o st name).1 = false)
    (h2 : cim = false ∨
      isTruthy (create_knowledge_collection o
        (get_knowledge_collection_id o st name).2.1 name desc).1 = false) :
    (upload_files_to_knowledge o st name files cim desc).1.total =
      files.length ∧
    (upload_files_to_knowledge o st name files cim desc).1.success = 0 ∧
    (upload_files_to_knowledge o st name files cim desc).1.failed =
      files.length ∧
    (upload_files_to_knowledge o st name files cim desc).1.errors.length
      = 1 ∧
    (upload_files_to_knowledge o st name files cim desc).2.2.filter
      Event.isFileCall = [] := by
  have hA : (get_knowledge_collection_id o st name).2.2.filter
      Event.isFileCall = [] := by
    simpa [get_knowledge_collection_id, list_knowledge_collections] using
      listGo_noFileCall o st list_candidates
  have hB : (create_knowledge_collection o
      (get_knowledge_collection_id o st name).2.1 name desc).2.2.filter
      Event.isFileCall = [] := by
    simpa [create_knowledge_collection] using
      createGo_noFileCall o (get_knowledge_collection_id o st name).2.1
        [("name", name), ("description", desc)]
        (createCandidates (get_knowledge_collection_id o st name).2.1)
  rcases h2 with h2 | h2
  · subst h2
    refine ⟨?_, ?_, ?_, ?_, ?_⟩ <;>
      simp [upload_files_to_knowledge, h1, hA]
  · cases cim
    · refine ⟨?_, ?_, ?_, ?_, ?_⟩ <;>
        simp [upload_files_to_knowledge, h1, hA]
    · refine ⟨?_, ?_, ?_, ?_, ?_⟩ <;>
        simp [upload_files_to_knowledge, h1, h2, List.filter_append, hA, hB]

/-- Witness for C2 in the all-failing environment without creation. -/
theorem C2_witness :
    (upload_files_to_knowledge oracleFail ⟨none⟩ "kb" ["a.md", "b.md"]
      false "").1.total = 2 ∧
    (upload_files_to_knowledge oracleFail ⟨none⟩ "kb" ["a.md", "b.md"]
      false "").1.success = 0 ∧
    (upload_files_to_knowledge oracleFail ⟨none⟩ "kb" ["a.md", "b.md"]
      false "").1.failed = 2 ∧
    (upload_files_to_knowledge oracleFail ⟨none⟩ "kb" ["a.md", "b.md"]
      false "").1.errors.length = 1 ∧
    (upload_files_to_knowledge oracleFail ⟨none⟩ "kb" ["a.md", "b.md"]
      false "").2.2.filter Event.isFileCall = [] := by
  have h := C2_batch_fails_without_collection oracleFail ⟨none⟩ "kb"
    ["a.md", "b.md"] false "" (by decide) (Or.inl rfl)
  simpa using h

/-- C3: a path whose (lowercased) filename is `.ds_store` or `thumbs.db`,
or whose lowercased extension is outside the allow-list, fails the filter;
`upload_file` then returns no id and performs no network call, and the
batch loop counts such a file as one failure with a per-file error
message. -/
theorem C3_disallowed_files_skipped (o : Oracle) (p : String)
    (h : pyLower (pathName p) = ".ds_store" ∨
      pyLower (pathName p) = "thumbs.db" ∨
      pyLower (pathSuffix p) ∉ allowed_extensions) :
    is_allowed_file p = false ∧ upload_file o p = (none, []) ∧
    ∀ kid rest, processFiles o kid (p :: rest) =
      ⟨(processFiles o kid rest).success,
       (processFiles o kid rest).failed + 1,
       ("Failed to upload " ++ p) :: (processFiles o kid rest).errors,
       (processFiles o kid rest).trace⟩ := by
  have hna : is_allowed_file p = false := by
    rcases h with h | h | h
    · simp [is_allowed_file, h]
    · simp [is_allowed_file, h]
    · have hc := contains_eq_false_of_not_mem h
      simp only [is_allowed_file, hc]
      exact ite_self false
  refine ⟨hna, upload_file_not_allowed o p hna, ?_⟩
  intro kid rest
  simp [processFiles, upload_file_not_allowed o p hna, isTruthy]

/-- Witness for C3 on a file with a disallowed extension. -/
theorem C3_witness :
    is_allowed_file "notes.exe" = false ∧
    upload_file oracleBatch "notes.exe" = (none, []) ∧
    processFiles oracleBatch "k" ["notes.exe"] =
      ⟨0, 1, ["Failed to upload notes.exe"], []⟩ := by
  have h := C3_disallowed_files_skipped oracleBatch "notes.exe"
    (Or.inr (Or.inr (by decide)))
  refine ⟨h.1, h.2.1, ?_⟩
  rw [h.2.2 "k" []]
  rfl

/-- C4: with three retries and a link request failing on every attempt,
`add_file_to_knowledge` performs exactly three request attempts with a
`retry_delay` sleep between consecutive ones and none after the last, then
returns false; and for every retries value the trace never holds more than
`retries` link requests. -/
theorem C4_link_retry_bound (resp : Nat → Bool)
    (knowledge_id file_id : String) (d : Rat)
    (h : ∀ n, resp n = false) :
    (add_file_to_knowledge resp knowledge_id file_id 3 d).1 = false ∧
    (add_file_to_knowledge resp knowledge_id file_id 3 d).2 =
      [Event.linkPost (link_endpoint knowledge_id) (link_payload file_id),
       Event.sleep d,
       Event.linkPost (link_endpoint knowledge_id) (link_payload file_id),
       Event.sleep d,
       Event.linkPost (link_endpoint knowledge_id) (link_payload file_id)] ∧
    ∀ (resp' : Nat → Bool) (retries : Nat) (d' : Rat),
      countLink
        (add_file_to_knowledge resp' knowledge_id file_id retries d').2 ≤
        retries := by
  refine ⟨?_, ?_, ?_⟩
  · simp [add_file_to_knowledge, addGo, h 0, h 1, h 2]
  · simp [add_file_to_knowledge, addGo, h 0, h 1, h 2]
  · intro resp' retries d'
    cases retries with
    | zero => simp [add_file_to_knowledge, countLink]
    | succ n =>
      exact addGo_countLink resp'
        (Event.linkPost (link_endpoint knowledge_id)
          (link_payload file_id)) d' n 0

/-- Witness for C4 with every attempt failing. -/
theorem C4_witness :
    (add_file_to_knowledge (fun _ => false) "k" "f" 3 5).1 = false ∧
    countLink (add_file_to_knowledge (fun _ => false) "k" "f" 7 5).2 ≤ 7 := by
  have h := C4_link_retry_bound (fun _ => false) "k" "f" 5 (fun _ => rfl)
  exact ⟨h.1, h.2.2 (fun _ => false) 7 5⟩

/-- C5: when every candidate listing path yields a failed request, an HTML
content type, or a non-JSON body, `list_knowledge_collections` tries the
candidates in their fixed order (the trace is one GET per candidate, in
order), returns the empty list, and, being a total function, lets no
exception escape; otherwise it returns the parsed body of the first
candidate yielding parseable (non-HTML) JSON. -/
theorem C5_listing_fallback (o : Oracle) (st : ClientState) :
    ((∀ e ∈ list_candidates, (o.list e).isOk = false) →
      (list_knowledge_collections o st).1 = [] ∧
      (list_knowledge_collections o st).2.2 =
        list_candidates.map Event.listGet) ∧
    (∀ e v, firstFetchOk o.list list_candidates = some (e, v) →
      (list_knowledge_collections o st).1 = v) :=
  ⟨fun h => listGo_allFail o st list_candidates h,
   fun e v h => listGo_firstOk o st list_candidates e v h⟩

/-- Witness for C5 in the all-failing environment. -/
theorem C5_witness :
    (list_knowledge_collections oracleFail ⟨none⟩).1 = [] ∧
    (list_knowledge_collections oracleFail ⟨none⟩).2.2 =
      list_candidates.map Event.listGet :=
  (C5_listing_fallback oracleFail ⟨none⟩).1 (by decide)

/-- C6 counterexample: with the listing path `/api/v1/knowledges` already
discovered, creation fails on the first candidate and succeeds via the
candidate `/api/v1/workspace/knowledge/create`, yet the client does not
cache that path's base: the cached endpoint stays `/api/v1/knowledges`. -/
theorem C6_counterexample :
    (create_knowledge_collection oracleCreate stListed "n" "").1 =
      some "42" ∧
    firstFetchOk oracleCreate.create (createCandidates stListed) =
      some ("/api/v1/workspace/knowledge/create", some "42") ∧
    ¬ ((create_knowledge_collection oracleCreate stListed "n"
        "").2.1.knowledgeEndpoint =
      some (pyReplace "/api/v1/workspace/knowledge/create" "/create" "")) :=
  by decide

/-- C6 amended: whenever creation succeeds via the first candidate path
yielding parseable JSON, the client returns that response's id; it caches
that path minus `/create` as the discovered endpoint only when none was
discovered before, otherwise the previously discovered endpoint is kept —
and that previously discovered path is the base of the first create
attempt. -/
theorem C6_amended_create_caching (o : Oracle) (st : ClientState)
    (name desc e : String) (r : Option String)
    (h : firstFetchOk o.create (createCandidates st) = some (e, r)) :
    (create_knowledge_collection o st name desc).1 = r ∧
    (create_knowledge_collection o st name desc).2.1 =
      (if isTruthy st.knowledgeEndpoint then st
       else { st with knowledgeEndpoint := some (pyReplace e "/create" "") })
      ∧
    (createCandidates st).head? = some (createBase st ++ "/create") ∧
    (isTruthy st.knowledgeEndpoint = true →
      createBase st = st.knowledgeEndpoint.getD "") := by
  have hg := createGo_firstOk o st [("name", name), ("description", desc)]
    (createCandidates st) e r h
  exact ⟨hg.1, hg.2, rfl, fun ht => by simp [createBase, ht]⟩

/-- Witness for the amended C6: success via the second candidate leaves the
already-discovered endpoint unchanged and returns the new id. -/
theorem C6_amended_witness :
    (create_knowledge_collection oracleCreate stListed "n" "").1 =
      some "42" ∧
    (create_knowledge_collection oracleCreate stListed "n" "").2.1 =
      stListed := by
  have h := C6_amended_create_caching oracleCreate stListed "n" ""
    "/api/v1/workspace/knowledge/create" (some "42") (by decide)
  refine ⟨h.1, ?_⟩
  rw [h.2.1]
  decide

/-- C7: in a batch of three files where the second upload fails and the
other two files upload and link, the result is
`{total := 3, success := 2, failed := 1}` with exactly one error naming the
failed file's path; and in general the per-file loop treats a
concatenation of path lists as both parts independently, so one file's
failure never stops the remaining files. -/
theorem C7_batch_partial_failure :
    (upload_files_to_knowledge oracleBatch ⟨none⟩ "kb"
      ["a.md", "b.md", "c.md"] false "").1 =
      ⟨2, 1, 3, ["Failed to upload b.md"]⟩ ∧
    ∀ (o : Oracle) (kid : String) (ps qs : List String),
      (processFiles o kid (ps ++ qs)).success =
        (processFiles o kid ps).success + (processFiles o kid qs).success ∧
      (processFiles o kid (ps ++ qs)).failed =
        (processFiles o kid ps).failed + (processFiles o kid qs).failed ∧
      (processFiles o kid (ps ++ qs)).errors =
        (processFiles o kid ps).errors ++ (processFiles o kid qs).errors :=
  ⟨by decide, fun o kid ps qs => processFiles_append o kid ps qs⟩

/-- C8: any id `get_knowledge_collection_id` returns belongs to a listed
collection whose name equals the queried name exactly (string equality is
case-sensitive); it returns none when no listed collection has that exact
name; and when a match exists among id-carrying collections it does return
some id. -/
theorem C8_exact_name_match (o : Oracle) (st : ClientState)
    (name : String) :
    (∀ i, (get_knowledge_collection_id o st name).1 = some i →
      ∃ c ∈ (list_knowledge_collections o st).1,
        c.name = some name ∧ c.id = some i) ∧
    ((∀ c ∈ (list_knowledge_collections o st).1, c.name ≠ some name) →
      (get_knowledge_collection_id o st name).1 = none) ∧
    ((∀ c ∈ (list_knowledge_collections o st).1, c.id ≠ none) →
      (∃ c ∈ (list_knowledge_collections o st).1, c.name = some name) →
      ∃ i, (get_knowledge_collection_id o st name).1 = some i) :=
  ⟨fun i h => findId_mem (list_knowledge_collections o st).1 name i h,
   fun h => findId_not_found (list_knowledge_collections o st).1 name h,
   fun h hex => findId_found (list_knowledge_collections o st).1 name h hex⟩

/-- Witness for C8: no listed collection is named `zz`, so resolution
returns none. -/
theorem C8_witness :
    (get_knowledge_collection_id oracleBatch ⟨none⟩ "zz").1 = none :=
  (C8_exact_name_match oracleBatch ⟨none⟩ "zz").2.1 (by decide)

/-- C9: resolving the same name twice on the same client against an
unchanged remote (the oracle answers each request the same way every time)
returns the same result, even though the first call may have cached a
discovered endpoint: the listing candidates are fixed and the cache is
never read by listing. -/
theorem C9_resolution_idempotent (o : Oracle) (st : ClientState)
    (name : String) :
    (get_knowledge_collection_id o st name).1 =
    (get_knowledge_collection_id o
      (get_knowledge_collection_id o st name).2.1 name).1 := by
  simp only [get_knowledge_collection_id, list_knowledge_collections]
  rw [listGo_result_ignores_state o
    (listGo o st list_candidates).2.1 st list_candidates]

/-- C10: every result of `upload_files_to_knowledge`, the early
collection-failure results included, satisfies
`success + failed = total` with `total` the length of the input list. -/
theorem C10_counts_invariant (o : Oracle) (st : ClientState)
    (name : String) (files : List String) (cim : Bool) (desc : String) :
    (upload_files_to_knowledge o st name files cim desc).1.success +
      (upload_files_to_knowledge o st name files cim desc).1.failed =
      (upload_files_to_knowledge o st name files cim desc).1.total ∧
    (upload_files_to_knowledge o st name files cim desc).1.total =
      files.length := by
  simp only [upload_files_to_knowledge]
  split
  · exact ⟨processFiles_sum o _ files, rfl⟩
  · split
    · split
      · exact ⟨processFiles_sum o _ files, rfl⟩
      · exact ⟨by simp, rfl⟩
    · exact ⟨by simp, rfl⟩

end Uploader
